import Mathlib

/-!
# Verification of the xG feature-engineering core (MatteoFelici/football)

Shallow embedding of `src/xg-model/src/feature_engineering.py` (the
`isInside` point-in-triangle test and the `XGFeatEng` transformer) and of
`safe_num_cast` from `src/src/utils.py`.

Modelling conventions:
* Python/numpy floats are modelled as exact rationals `ℚ`; the transcendental
  outputs (`np.sqrt`, `np.arctan`) live in `ℝ`.
* A Python exception is modelled as `Option.none` at the level of the raising
  computation.  In particular plain-Python float division by zero
  (a `ZeroDivisionError` in `isInside` when the triangle is degenerate) makes
  `isInside` return `none`.
* Inside `XGFeatEng.transform` the shot coordinates are numpy `float64`
  scalars coming from pandas columns, so there a division by a zero
  denominator yields `inf`/`nan` (no exception) and the chained comparisons
  `0 <= a <= 1` all evaluate to `False`; the membership test
  `isInside(...) == 1` therefore excludes every player when the cone triangle
  is degenerate.  The filter below tests `isInside ... = some true`, which
  reproduces exactly that behaviour.
* A missing value (`None` / `NaN` cell) is modelled as `Option.none` at the
  level of the stored value.
-/

/-- One entry of a `freeze_frame`: `{location: [x, y], teammate: bool,
position: {name: string}}`. -/
structure Player where
  loc_x : ℚ
  loc_y : ℚ
  teammate : Bool
  position : String
deriving DecidableEq

/-- One input row of the shot table, with the columns the transformer reads.
`none` models a null/NaN cell. -/
structure ShotEvent where
  x_shot : ℚ
  y_shot : ℚ
  key_pass : Option String
  pass_height : Option String
  x_pass_received : Option ℚ
  y_pass_received : Option ℚ
  freeze_frame : Option (List Player)

/-- Denominator of the barycentric coordinates in `isInside`:
`(y2 - y3) * (x1 - x3) + (x3 - x2) * (y1 - y3)`. -/
def baryDenom (x1 y1 x2 y2 x3 y3 : ℚ) : ℚ :=
  (y2 - y3) * (x1 - x3) + (x3 - x2) * (y1 - y3)

/-- First barycentric coordinate `a` computed by `isInside`. -/
def baryA (x1 y1 x2 y2 x3 y3 x y : ℚ) : ℚ :=
  ((y2 - y3) * (x - x3) + (x3 - x2) * (y - y3)) / baryDenom x1 y1 x2 y2 x3 y3

/-- Second barycentric coordinate `b` computed by `isInside`. -/
def baryB (x1 y1 x2 y2 x3 y3 x y : ℚ) : ℚ :=
  ((y3 - y1) * (x - x3) + (x1 - x3) * (y - y3)) / baryDenom x1 y1 x2 y2 x3 y3

/-- `isInside(x1, y1, x2, y2, x3, y3, x, y)` from
`src/xg-model/src/feature_engineering.py`: barycentric point-in-triangle
test.  With plain Python float scalars a degenerate triangle (zero
denominator) raises `ZeroDivisionError`, modelled here as `none`. -/
def isInside (x1 y1 x2 y2 x3 y3 x y : ℚ) : Option Bool :=
  if baryDenom x1 y1 x2 y2 x3 y3 = 0 then none
  else
    some (decide (0 ≤ baryA x1 y1 x2 y2 x3 y3 x y ∧ baryA x1 y1 x2 y2 x3 y3 x y ≤ 1 ∧
      0 ≤ baryB x1 y1 x2 y2 x3 y3 x y ∧ baryB x1 y1 x2 y2 x3 y3 x y ≤ 1 ∧
      0 ≤ 1 - baryA x1 y1 x2 y2 x3 y3 x y - baryB x1 y1 x2 y2 x3 y3 x y ∧
      1 - baryA x1 y1 x2 y2 x3 y3 x y - baryB x1 y1 x2 y2 x3 y3 x y ≤ 1))

/-- The point `(x, y)` lies within or on the boundary of the triangle with
vertices `(x1, y1)`, `(x2, y2)`, `(x3, y3)`: it is a convex combination of
the three vertices. -/
def inTriangle (x1 y1 x2 y2 x3 y3 x y : ℚ) : Prop :=
  ∃ a b c : ℚ, 0 ≤ a ∧ 0 ≤ b ∧ 0 ≤ c ∧ a + b + c = 1 ∧
    x = a * x1 + b * x2 + c * x3 ∧ y = a * y1 + b * y2 + c * y3

/-! ## The `XGFeatEng` transformer

`self.pitch_dim = (105, 65)`, `self.goal_dim = 7.32`. -/

/-- `self.goal_dim = 7.32`. -/
def goal_dim : ℚ := 732 / 100

/-- `XGFeatEng._normalize_x`: `x * self.pitch_dim[0] / 120`. -/
def normalize_x (x : ℚ) : ℚ := x * 105 / 120

/-- `XGFeatEng._normalize_y`: `y * self.pitch_dim[1] / 80`. -/
def normalize_y (y : ℚ) : ℚ := y * 65 / 80

/-- Denominator of the fraction inside `np.arctan` in
`XGFeatEng._calculate_angle`:
`(self.pitch_dim[0] - x) ** 2 + y ** 2 - (self.goal_dim / 2) ** 2`. -/
def angleDenom (x y : ℚ) : ℚ := (105 - x) ^ 2 + y ^ 2 - (goal_dim / 2) ^ 2

/-- The argument passed to `np.arctan` in `XGFeatEng._calculate_angle`:
`self.goal_dim * (self.pitch_dim[0] - x) / angleDenom x y`.  (When the
denominator is zero numpy produces `inf`/`nan` rather than a rational; every
theorem about the angle below therefore assumes `angleDenom x y ≠ 0`.) -/
def angleArg (x y : ℚ) : ℚ := goal_dim * (105 - x) / angleDenom x y

/-- `XGFeatEng._calculate_angle`: `np.arctan` of `angleArg`, with `π` added
whenever the arctan value is negative (`angle[angle < 0] += np.pi`). -/
noncomputable def calculate_angle (x y : ℚ) : ℝ :=
  if Real.arctan (angleArg x y) < 0 then Real.arctan (angleArg x y) + Real.pi
  else Real.arctan (angleArg x y)

/-- Squared Euclidean distance, the radicand in `XGFeatEng._calcuate_distance`:
`(a[0] - b[0]) ** 2 + (a[1] - b[1]) ** 2`. -/
def distSq (a b : ℚ × ℚ) : ℚ := (a.1 - b.1) ^ 2 + (a.2 - b.2) ^ 2

/-- `XGFeatEng._calcuate_distance` (name and typo as in the source):
`np.sqrt((a[0] - b[0]) ** 2 + (a[1] - b[1]) ** 2)`. -/
noncomputable def calcuate_distance (a b : ℚ × ℚ) : ℝ := Real.sqrt (distSq a b)

/-- The membership test applied to each player in
`XGFeatEng._check_if_in_goal_cone`: `isInside(x_shot, y_shot, 105,
65 - goal_dim/2, 105, 65 + goal_dim/2, normalize_x(loc[0]),
normalize_y(loc[1])) == 1`.  Inside `transform` the shot coordinates are
numpy `float64` scalars, so a degenerate cone gives `inf`/`nan` barycentric
coordinates and the comparison chain returns `False` instead of raising;
`= some true` reproduces that (a `none` result compares unequal). -/
def inGoalCone (x_shot y_shot : ℚ) (p : Player) : Bool :=
  isInside x_shot y_shot 105 (65 - goal_dim / 2) 105 (65 + goal_dim / 2)
    (normalize_x p.loc_x) (normalize_y p.loc_y) = some true

/-- `XGFeatEng._check_if_in_goal_cone(players_list, x_shot, y_shot)`:
the sublist of players whose normalized location passes `inGoalCone`. -/
def check_if_in_goal_cone (players_list : List Player) (x_shot y_shot : ℚ) :
    List Player :=
  players_list.filter (inGoalCone x_shot y_shot)

/-- `np.min` over a list of values; `none` models the `ValueError` raised on
an empty sequence (unreachable in `transform`, which guards on
`opponents_between > 0`). -/
noncomputable def listMin : List ℝ → Option ℝ
  | [] => none
  | x :: xs => some (xs.foldl min x)

/-- One output row of `XGFeatEng.transform`.  The dropped input columns
(`freeze_frame`, `key_pass`, `pass_height`, `x_pass_received`,
`y_pass_received`) are absent; the derived columns are present.  `Option`
fields model nullable cells. -/
structure OutRow where
  x_shot : ℚ
  y_shot : ℚ
  y_center : ℚ
  distance : ℝ
  angle : ℝ
  has_key_pass : ℕ
  distance_before_shot : Option ℝ
  is_high_pass : ℕ
  players_between : Option ℕ
  opponents_between : Option ℕ
  is_there_goalkeeper : ℕ
  nearest_opponent : Option ℝ

/-- The normalized shot coordinates of the whole batch: the columns
`df['x_shot']`, `df['y_shot']` after normalization.  The buggy
`nearest_opponent` lambda closes over these full columns. -/
def transformCtx (X : List ShotEvent) : List (ℚ × ℚ) :=
  X.map (fun r => (normalize_x r.x_shot, normalize_y r.y_shot))

/-- The row-wise part of `XGFeatEng.transform`.

* `none` models the `TypeError` raised for a row with a null `freeze_frame`:
  the `is_there_goalkeeper` lambda evaluates
  `len([i for i in x['freeze_frame'] ...]) > 0` before the
  `or x['freeze_frame'] is None` disjunct, and iterating `None` raises.
* `nearest_opponent` reproduces the source faithfully: the distances are
  computed against the whole normalized columns
  `(df['x_shot'], df['y_shot'])` (the `ctx` argument), not against the row's
  own shot location, and `np.min` is taken over the flattened collection. -/
noncomputable def rowTransform (ctx : List (ℚ × ℚ)) (r : ShotEvent) :
    Option OutRow :=
  match r.freeze_frame with
  | none => none
  | some f =>
    let x' := normalize_x r.x_shot
    let y' := normalize_y r.y_shot
    let yc := |y' - 65 / 2|
    let opps := check_if_in_goal_cone (f.filter (fun p => !p.teammate)) x' y'
    some {
      x_shot := x'
      y_shot := y'
      y_center := yc
      distance := calcuate_distance (105, 0) (x', yc)
      angle := calculate_angle x' yc
      has_key_pass := match r.key_pass with | none => 0 | some _ => 1
      distance_before_shot :=
        match r.x_pass_received, r.y_pass_received with
        | some px, some py => some (calcuate_distance (x', y') (px, py))
        | _, _ => none
      is_high_pass := if r.pass_height = some "High Pass" then 1 else 0
      players_between := some (check_if_in_goal_cone f x' y').length
      opponents_between := some opps.length
      is_there_goalkeeper :=
        if 0 < (check_if_in_goal_cone
            (f.filter (fun p => !p.teammate && p.position = "Goalkeeper"))
            x' y').length then 1 else 0
      nearest_opponent :=
        if 0 < opps.length then
          listMin (opps.flatMap (fun p =>
            ctx.map (fun c =>
              calcuate_distance c (normalize_x p.loc_x, normalize_y p.loc_y))))
        else none }

/-- Row-wise application that propagates a raised exception (`none`):
the pandas `df.apply(..., 1)` calls in `transform` evaluate their lambda on
every row and an exception aborts the whole transform. -/
noncomputable def mapOpt {α β : Type} (g : α → Option β) : List α → Option (List β)
  | [] => some []
  | a :: l =>
    match g a, mapOpt g l with
    | some b, some bs => some (b :: bs)
    | _, _ => none

/-- `XGFeatEng.transform` on a batch of rows.  The output list preserves the
row order of the input; `none` models an exception aborting the batch. -/
noncomputable def transform (X : List ShotEvent) : Option (List OutRow) :=
  mapOpt (rowTransform (transformCtx X)) X

/-! ## `safe_num_cast` from `src/src/utils.py` -/

/-- Numeric value of a decimal digit character (`10` when not a digit). -/
def digitVal : Char → ℕ
  | '0' => 0 | '1' => 1 | '2' => 2 | '3' => 3 | '4' => 4
  | '5' => 5 | '6' => 6 | '7' => 7 | '8' => 8 | '9' => 9
  | _ => 10

/-- `c` is a decimal digit. -/
def isDig (c : Char) : Bool := digitVal c < 10

/-- Decimal value of a digit string (most significant first). -/
def digitsToNat (l : List Char) : ℕ :=
  l.foldl (fun n c => 10 * n + digitVal c) 0

/-- Split at the first decimal point: integer part, and the remainder after
the point when one is present. -/
def splitAtDot : List Char → List Char × Option (List Char)
  | [] => ([], none)
  | c :: r =>
    if c = '.' then ([], some r)
    else (c :: (splitAtDot r).1, (splitAtDot r).2)

/-- Model of the Python builtin `float(...)` (the deprecated `np.float` is an
alias for it) restricted to plain decimal literals: digits with an optional
decimal point (`"12"`, `"12.5"`, `"12."`, `".5"`).  A second decimal point or
any non-digit character gives `none` (a `ValueError` in Python). -/
def pyFloatCore (l : List Char) : Option ℚ :=
  match splitAtDot l with
  | (ip, none) =>
    if ip ≠ [] ∧ ip.all isDig then some (digitsToNat ip) else none
  | (ip, some fp) =>
    if (ip.all isDig ∧ fp.all isDig) ∧ (ip ≠ [] ∨ fp ≠ []) then
      some ((digitsToNat ip : ℚ) + (digitsToNat fp : ℚ) / 10 ^ fp.length)
    else none

/-- `float(s)` with an optional leading sign; see `pyFloatCore`. -/
def pyFloat (s : String) : Option ℚ :=
  match s.data with
  | '-' :: r => (pyFloatCore r).map (fun q => -q)
  | '+' :: r => pyFloatCore r
  | l => pyFloatCore l

/-- `safe_num_cast(num)` from `src/src/utils.py`.  `num[-1]` raises
`IndexError` on the empty string; `float` raises `ValueError` on unparseable
input; the bare `except:` turns any such exception into `np.nan`, modelled
as `none`.  A trailing `'%'` makes the prefix be parsed and divided by 100. -/
def safe_num_cast (num : String) : Option ℚ :=
  match num.data.getLast? with
  | none => none
  | some c =>
    if c = '%' then
      match pyFloat (String.mk num.data.dropLast) with
      | some q => some (q / 100)
      | none => none
    else pyFloat num

/-- The player `p` (after normalization) lies strictly inside the goal cone
triangle used by `transform`: all three barycentric coordinates are strictly
between 0 and 1 (and the triangle is non-degenerate). -/
def strictlyInCone (x_shot y_shot : ℚ) (p : Player) : Prop :=
  baryDenom x_shot y_shot 105 (65 - goal_dim / 2) 105 (65 + goal_dim / 2) ≠ 0 ∧
  0 < baryA x_shot y_shot 105 (65 - goal_dim / 2) 105 (65 + goal_dim / 2)
      (normalize_x p.loc_x) (normalize_y p.loc_y) ∧
  baryA x_shot y_shot 105 (65 - goal_dim / 2) 105 (65 + goal_dim / 2)
      (normalize_x p.loc_x) (normalize_y p.loc_y) < 1 ∧
  0 < baryB x_shot y_shot 105 (65 - goal_dim / 2) 105 (65 + goal_dim / 2)
      (normalize_x p.loc_x) (normalize_y p.loc_y) ∧
  baryB x_shot y_shot 105 (65 - goal_dim / 2) 105 (65 + goal_dim / 2)
      (normalize_x p.loc_x) (normalize_y p.loc_y) < 1 ∧
  0 < 1 - baryA x_shot y_shot 105 (65 - goal_dim / 2) 105 (65 + goal_dim / 2)
      (normalize_x p.loc_x) (normalize_y p.loc_y)
    - baryB x_shot y_shot 105 (65 - goal_dim / 2) 105 (65 + goal_dim / 2)
      (normalize_x p.loc_x) (normalize_y p.loc_y)

/-! ## Concrete instances used to evaluate the transform -/

/-- A row on the goal-line centre: raw `(120, 40)` normalizes to `(105, 32.5)`;
empty freeze frame so the transform completes. -/
def c4row : ShotEvent := ⟨120, 40, none, none, none, none, some []⟩

/-- The output row produced by `transform [c4row]`. -/
noncomputable def c4out : OutRow :=
  { x_shot := normalize_x 120
    y_shot := normalize_y 40
    y_center := |normalize_y 40 - 65 / 2|
    distance := calcuate_distance (105, 0) (normalize_x 120, |normalize_y 40 - 65 / 2|)
    angle := calculate_angle (normalize_x 120) (|normalize_y 40 - 65 / 2|)
    has_key_pass := 0
    distance_before_shot := none
    is_high_pass := 0
    players_between := some 0
    opponents_between := some 0
    is_there_goalkeeper := 0
    nearest_opponent := none }

/-- A row whose `freeze_frame` is null (`None`). -/
def c2row : ShotEvent := ⟨100, 40, none, none, none, none, none⟩

/-- An opposing player at raw `(110, 40)` (normalized `(96.25, 32.5)`):
dead centre between the shot of `c3row` and the middle of the goal. -/
def c3player : Player := ⟨110, 40, false, "Center Back"⟩

/-- A shot at raw `(100, 40)` (normalized `(87.5, 32.5)`) with `c3player`
directly on the segment from the shot to the goal centre. -/
def c3row : ShotEvent := ⟨100, 40, none, none, none, none, some [c3player]⟩

/-- The output row produced by `transform [c3row]`: the counts are 0 because
the cone triangle of the source points at `y ∈ [61.34, 68.66]`. -/
noncomputable def c3out : OutRow :=
  { x_shot := normalize_x 100
    y_shot := normalize_y 40
    y_center := |normalize_y 40 - 65 / 2|
    distance := calcuate_distance (105, 0) (normalize_x 100, |normalize_y 40 - 65 / 2|)
    angle := calculate_angle (normalize_x 100) (|normalize_y 40 - 65 / 2|)
    has_key_pass := 0
    distance_before_shot := none
    is_high_pass := 0
    players_between := some 0
    opponents_between := some 0
    is_there_goalkeeper := 0
    nearest_opponent := none }

/-- An opposing player at raw `(100, 56)`, normalized `(87.5, 45.5)`:
strictly inside the goal cone of `c1row0`. -/
def c1opp : Player := ⟨100, 56, false, "Center Back"⟩

/-- First row of the two-row batch exhibiting the `nearest_opponent` bug:
shot raw `(80, 32)` (normalized `(70, 26)`), one in-cone opponent. -/
def c1row0 : ShotEvent := ⟨80, 32, none, none, none, none, some [c1opp]⟩

/-- Second row: its shot raw `(100, 56)` normalizes to exactly the position
of `c1opp`; empty freeze frame. -/
def c1row1 : ShotEvent := ⟨100, 56, none, none, none, none, some []⟩

/-- Output for `c1row0`: `nearest_opponent` is the minimum over distances
from BOTH rows' shot locations to the in-cone opponent, as the source
computes it from the whole `df['x_shot']`/`df['y_shot']` columns. -/
noncomputable def c1out0 : OutRow :=
  { x_shot := normalize_x 80
    y_shot := normalize_y 32
    y_center := |normalize_y 32 - 65 / 2|
    distance := calcuate_distance (105, 0) (normalize_x 80, |normalize_y 32 - 65 / 2|)
    angle := calculate_angle (normalize_x 80) (|normalize_y 32 - 65 / 2|)
    has_key_pass := 0
    distance_before_shot := none
    is_high_pass := 0
    players_between := some 1
    opponents_between := some 1
    is_there_goalkeeper := 0
    nearest_opponent := some (min
      (calcuate_distance (normalize_x 80, normalize_y 32)
        (normalize_x 100, normalize_y 56))
      (calcuate_distance (normalize_x 100, normalize_y 56)
        (normalize_x 100, normalize_y 56))) }

/-- Output for `c1row1`. -/
noncomputable def c1out1 : OutRow :=
  { x_shot := normalize_x 100
    y_shot := normalize_y 56
    y_center := |normalize_y 56 - 65 / 2|
    distance := calcuate_distance (105, 0) (normalize_x 100, |normalize_y 56 - 65 / 2|)
    angle := calculate_angle (normalize_x 100) (|normalize_y 56 - 65 / 2|)
    has_key_pass := 0
    distance_before_shot := none
    is_high_pass := 0
    players_between := some 0
    opponents_between := some 0
    is_there_goalkeeper := 0
    nearest_opponent := none }

/-- Row used for the monotonicity witness: shot raw `(80, 32)`, empty
freeze frame. -/
def c9row : ShotEvent := ⟨80, 32, none, none, none, none, some []⟩

/-! ## Helper lemmas -/

theorem arctan_lt_zero_iff (t : ℝ) : Real.arctan t < 0 ↔ t < 0 := by
  nth_rewrite 1 [show (0:ℝ) = Real.arctan 0 by rw [Real.arctan_zero]]
  exact Real.arctan_strictMono.lt_iff_lt

theorem angleArg_at_goal_center : angleArg 105 0 = 0 := by
  norm_num [angleArg, angleDenom, goal_dim]

theorem calculate_angle_at_goal_center : calculate_angle 105 0 = 0 := by
  rw [calculate_angle, angleArg_at_goal_center]
  simp [Real.arctan_zero]

theorem mapOpt_length {α β : Type} (g : α → Option β) :
    ∀ (l : List α) (out : List β), mapOpt g l = some out → out.length = l.length := by
  intro l
  induction l with
  | nil => intro out h; simp only [mapOpt, Option.some.injEq] at h; simp [← h]
  | cons a r ih =>
    intro out h
    simp only [mapOpt] at h
    cases hga : g a with
    | none => rw [hga] at h; simp at h
    | some b =>
      rw [hga] at h
      cases hmr : mapOpt g r with
      | none => rw [hmr] at h; simp at h
      | some bs =>
        rw [hmr] at h
        simp only [Option.some.injEq] at h
        rw [← h]
        simp [ih bs hmr]

theorem mapOpt_get {α β : Type} (g : α → Option β) :
    ∀ (l : List α) (out : List β), mapOpt g l = some out →
      ∀ (i : ℕ) (hi : i < l.length) (ho : i < out.length),
        g (l.get ⟨i, hi⟩) = some (out.get ⟨i, ho⟩) := by
  intro l
  induction l with
  | nil => intro out h i hi; simp at hi
  | cons a r ih =>
    intro out h i hi ho
    simp only [mapOpt] at h
    cases hga : g a with
    | none => rw [hga] at h; simp at h
    | some b =>
      rw [hga] at h
      cases hmr : mapOpt g r with
      | none => rw [hmr] at h; simp at h
      | some bs =>
        rw [hmr] at h
        simp only [Option.some.injEq] at h
        subst h
        cases i with
        | zero => simpa using hga
        | succ j =>
          have hj : j < r.length := by simpa using hi
          have hj' : j < bs.length := by simpa using ho
          simpa using ih bs hmr j hj hj'

theorem strict_inGoalCone (x_shot y_shot : ℚ) (p : Player)
    (h : strictlyInCone x_shot y_shot p) : inGoalCone x_shot y_shot p = true := by
  obtain ⟨hD, ha0, ha1, hb0, hb1, hc0⟩ := h
  rw [inGoalCone, isInside, if_neg hD]
  simp only [decide_eq_true_eq, Option.some.injEq]
  refine ⟨le_of_lt ha0, le_of_lt ha1, le_of_lt hb0, le_of_lt hb1, le_of_lt hc0, ?_⟩
  linarith

/-! ## Claims -/

/-- C8: `_normalize_x` and `_normalize_y` are the pure linear scalings
`x * (105/120)` and `y * (65/80)`; defined for every rational input, no
rounding. -/
theorem normalize_is_linear_scaling (x y : ℚ) :
    normalize_x x = x * (105 / 120) ∧ normalize_y y = y * (65 / 80) := by
  constructor
  · rw [normalize_x]; ring
  · rw [normalize_y]; ring

/-- C5 (amended): whenever the denominator is nonzero, the angle equals
`arctan(goal_dim * (105 - x) / denom)`, shifted by `+π` exactly when the
arctan argument is negative, and the result lies in `[0, π)` — it is never
negative, but it equals `0` (rather than being strictly positive) when the
shot sits on the goal line (`x = 105`). -/
theorem calculate_angle_formula_and_range (x y : ℚ) (h : angleDenom x y ≠ 0) :
    calculate_angle x y =
      (if angleArg x y < 0 then Real.arctan (angleArg x y) + Real.pi
       else Real.arctan (angleArg x y)) ∧
    0 ≤ calculate_angle x y ∧ calculate_angle x y < Real.pi := by
  have hiff : Real.arctan ((angleArg x y : ℚ) : ℝ) < 0 ↔ (angleArg x y : ℚ) < 0 := by
    rw [arctan_lt_zero_iff]
    exact_mod_cast Rat.cast_lt_zero
  by_cases hneg : (angleArg x y : ℚ) < 0
  · have harc : Real.arctan ((angleArg x y : ℚ) : ℝ) < 0 := hiff.mpr hneg
    rw [calculate_angle, if_pos harc, if_pos hneg]
    refine ⟨rfl, ?_, ?_⟩
    · have := Real.neg_pi_div_two_lt_arctan ((angleArg x y : ℚ) : ℝ)
      have hpi := Real.pi_pos
      linarith
    · have hpi := Real.pi_pos
      linarith
  · have harc : ¬ Real.arctan ((angleArg x y : ℚ) : ℝ) < 0 := fun hc => hneg (hiff.mp hc)
    rw [calculate_angle, if_neg harc, if_neg hneg]
    refine ⟨rfl, not_lt.mp harc, ?_⟩
    have h2 := Real.arctan_lt_pi_div_two ((angleArg x y : ℚ) : ℝ)
    have hpi := Real.pi_pos
    linarith

/-- Witness for C5's theorem at the concrete shot `(70, 0)`. -/
theorem calculate_angle_formula_and_range_witness :
    angleDenom 70 0 ≠ 0 ∧ (0 ≤ calculate_angle 70 0 ∧ calculate_angle 70 0 < Real.pi) :=
  ⟨by norm_num [angleDenom, goal_dim],
   (calculate_angle_formula_and_range 70 0 (by norm_num [angleDenom, goal_dim])).2⟩

/-- C5 (counterexample to the claim as stated): at the goal-line shot
`x = 105`, `y_center = 0` the denominator is nonzero yet the angle is `0`,
which does not lie in the open interval `(0, π)`. -/
theorem calculate_angle_not_in_open_interval :
    angleDenom 105 0 ≠ 0 ∧ calculate_angle 105 0 = 0 ∧ ¬ 0 < calculate_angle 105 0 := by
  refine ⟨by norm_num [angleDenom, goal_dim], calculate_angle_at_goal_center, ?_⟩
  rw [calculate_angle_at_goal_center]
  exact lt_irrefl 0

/-- C6: for a non-degenerate triangle, `isInside` returns `true` exactly when
the query point is a convex combination of the three vertices (i.e. lies
within or on the boundary of the triangle, the barycentric coordinates all
lying in `[0, 1]`); for a degenerate triangle the computation divides by
zero, modelled as `none`. -/
theorem isInside_iff_inTriangle (x1 y1 x2 y2 x3 y3 x y : ℚ) :
    (baryDenom x1 y1 x2 y2 x3 y3 ≠ 0 →
      (isInside x1 y1 x2 y2 x3 y3 x y = some true ↔ inTriangle x1 y1 x2 y2 x3 y3 x y)) ∧
    (baryDenom x1 y1 x2 y2 x3 y3 = 0 → isInside x1 y1 x2 y2 x3 y3 x y = none) := by
  constructor
  · intro hD
    rw [isInside, if_neg hD]
    simp only [Option.some.injEq, decide_eq_true_eq]
    constructor
    · rintro ⟨ha0, ha1, hb0, hb1, hc0, hc1⟩
      refine ⟨baryA x1 y1 x2 y2 x3 y3 x y, baryB x1 y1 x2 y2 x3 y3 x y,
        1 - baryA x1 y1 x2 y2 x3 y3 x y - baryB x1 y1 x2 y2 x3 y3 x y,
        ha0, hb0, hc0, by ring, ?_, ?_⟩
      · rw [baryA, baryB]
        field_simp
        rw [baryDenom]
        ring
      · rw [baryA, baryB]
        field_simp
        rw [baryDenom]
        ring
    · rintro ⟨a, b, c, ha, hb, hc, hsum, hx, hy⟩
      have hc' : c = 1 - a - b := by linarith
      subst hc'
      have hA : baryA x1 y1 x2 y2 x3 y3 x y = a := by
        rw [baryA, div_eq_iff hD, hx, hy, baryDenom]
        ring
      have hB : baryB x1 y1 x2 y2 x3 y3 x y = b := by
        rw [baryB, div_eq_iff hD, hx, hy, baryDenom]
        ring
      rw [hA, hB]
      refine ⟨ha, by linarith, hb, by linarith, by linarith, by linarith⟩
  · intro hD
    rw [isInside, if_pos hD]

/-- Witness for C6's theorem: the point `(1/4, 1/4)` is inside the triangle
`(0,0), (1,0), (0,1)`. -/
theorem isInside_iff_inTriangle_witness : isInside 0 0 1 0 0 1 (1/4) (1/4) = some true := by
  refine ((isInside_iff_inTriangle 0 0 1 0 0 1 (1/4) (1/4)).1 (by norm_num [baryDenom])).mpr ?_
  unfold inTriangle
  refine ⟨1/2, 1/4, 1/4, ?_, ?_, ?_, ?_, ?_, ?_⟩ <;> norm_num

/-- Evaluation of the transform on the goal-line-centre row. -/
theorem c4_eval : transform [c4row] = some [c4out] := rfl

/-- C4 (counterexample to the claim as stated): for the shot at normalized
`(105, 32.5)` (raw `(120, 40)`), the derived distance is `0` but the derived
angle is `0`, not `π/2`: the arctan argument is `0/(−(goal_dim/2)²) = 0` and
no `π` shift happens. -/
theorem goal_line_angle_not_half_pi :
    transform [c4row] = some [c4out] ∧ c4out.distance = 0 ∧ c4out.angle ≠ Real.pi / 2 := by
  have hx : normalize_x 120 = 105 := by norm_num [normalize_x]
  have hy : |normalize_y 40 - 65 / 2| = 0 := by norm_num [normalize_y]
  refine ⟨c4_eval, ?_, ?_⟩
  · have h0 : distSq (105, 0) (normalize_x 120, |normalize_y 40 - 65 / 2|) = 0 := by
      norm_num [distSq, normalize_x, normalize_y]
    show calcuate_distance (105, 0) (normalize_x 120, |normalize_y 40 - 65 / 2|) = 0
    rw [calcuate_distance, h0]
    simp [Real.sqrt_zero]
  · show calculate_angle (normalize_x 120) (|normalize_y 40 - 65 / 2|) ≠ Real.pi / 2
    rw [hx, hy, calculate_angle_at_goal_center]
    have := Real.pi_pos
    intro hcontra
    rw [eq_comm, div_eq_iff (by norm_num : (2:ℝ) ≠ 0)] at hcontra
    linarith

/-- C4 (amended): for the shot at normalized `(105, 32.5)` the derived
distance is `0` and the derived angle is `0` (the arctan argument is zero,
which is not negative, so no `π` shift is applied). -/
theorem goal_line_distance_and_angle_zero :
    transform [c4row] = some [c4out] ∧ c4out.distance = 0 ∧ c4out.angle = 0 := by
  have hx : normalize_x 120 = 105 := by norm_num [normalize_x]
  have hy : |normalize_y 40 - 65 / 2| = 0 := by norm_num [normalize_y]
  refine ⟨c4_eval, ?_, ?_⟩
  · have h0 : distSq (105, 0) (normalize_x 120, |normalize_y 40 - 65 / 2|) = 0 := by
      norm_num [distSq, normalize_x, normalize_y]
    show calcuate_distance (105, 0) (normalize_x 120, |normalize_y 40 - 65 / 2|) = 0
    rw [calcuate_distance, h0]
    simp [Real.sqrt_zero]
  · show calculate_angle (normalize_x 120) (|normalize_y 40 - 65 / 2|) = 0
    rw [hx, hy, calculate_angle_at_goal_center]

/-- C2: a row whose `freeze_frame` is null makes the whole transform raise
(`none`): the `is_there_goalkeeper` lambda iterates `x['freeze_frame']`
inside `len(...) > 0` before ever reaching the `or x['freeze_frame'] is
None` disjunct, so Python raises `TypeError` instead of producing the
claimed defaults. -/
theorem transform_fails_on_null_freeze_frame : transform [c2row] = none := rfl

/-- C7: whenever the transform completes, the output batch has exactly one
row per input row, in the same order, each obtained by the row-wise
computation from the corresponding input row (the dropped and added columns
are fixed by the `OutRow` shape).  The input batch is untouched (the source
works on `X.copy()`; the embedding is pure). -/
theorem transform_preserves_rows (X : List ShotEvent) (out : List OutRow)
    (h : transform X = some out) :
    out.length = X.length ∧
    ∀ (i : ℕ) (hi : i < X.length) (ho : i < out.length),
      rowTransform (transformCtx X) (X.get ⟨i, hi⟩) = some (out.get ⟨i, ho⟩) := by
  rw [transform] at h
  exact ⟨mapOpt_length _ X out h, mapOpt_get _ X out h⟩

/-- Witness for C7's theorem on the concrete one-row batch `[c4row]`. -/
theorem transform_preserves_rows_witness :
    List.length [c4out] = List.length [c4row] ∧
    rowTransform (transformCtx [c4row]) c4row = some c4out := by
  obtain ⟨hlen, hget⟩ := transform_preserves_rows [c4row] [c4out] c4_eval
  exact ⟨hlen, hget 0 (by norm_num) (by norm_num)⟩

/-- `c3player` is NOT inside the cone triangle the source builds (its posts
sit at `y = 61.34` and `y = 68.66`). -/
theorem c3cone : inGoalCone (normalize_x 100) (normalize_y 40)
    ⟨110, 40, false, "Center Back"⟩ = false := by
  norm_num [inGoalCone, isInside, baryDenom, baryA, baryB, normalize_x, normalize_y,
    goal_dim]

/-- Row-wise evaluation for `c3row`. -/
theorem c3rowEval : rowTransform (transformCtx [c3row]) c3row = some c3out := by
  simp [rowTransform, c3row, c3player, c3out, check_if_in_goal_cone, List.filter, c3cone]

/-- Evaluation of the transform on `[c3row]`. -/
theorem c3_eval : transform [c3row] = some [c3out] := by
  rw [transform]
  simp [mapOpt, c3rowEval]

/-- C3: the source's goal cone is not the triangle towards the goal centred
on the goal line.  `c3player` stands exactly between the shot of `c3row` and
the centre of the goal — it is inside the triangle with posts at
`y = 65/2 ∓ goal_dim/2` (third conjunct) — yet `players_between` and
`opponents_between` are both `0`, because the source places the posts at
`y = 65 - goal_dim/2` and `y = 65 + goal_dim/2` (the `/2` on the pitch width
is missing), a "goal" hanging off the pitch corner. -/
theorem goal_cone_miscentered :
    transform [c3row] = some [c3out] ∧
    c3out.players_between = some 0 ∧ c3out.opponents_between = some 0 ∧
    isInside (normalize_x 100) (normalize_y 40)
      105 (65 / 2 - goal_dim / 2) 105 (65 / 2 + goal_dim / 2)
      (normalize_x 110) (normalize_y 40) = some true := by
  refine ⟨c3_eval, rfl, rfl, ?_⟩
  norm_num [isInside, baryDenom, baryA, baryB, normalize_x, normalize_y, goal_dim]

/-- `c1opp` IS inside the source's cone triangle for the shot of `c1row0`
(barycentric coordinates `(1/2, 1/4, 1/4)`). -/
theorem c1cone : inGoalCone (normalize_x 80) (normalize_y 32)
    ⟨100, 56, false, "Center Back"⟩ = true := by
  norm_num [inGoalCone, isInside, baryDenom, baryA, baryB, normalize_x, normalize_y,
    goal_dim]

/-- Row-wise evaluation for `c1row0`. -/
theorem c1row0Eval : rowTransform (transformCtx [c1row0, c1row1]) c1row0 = some c1out0 := by
  simp [rowTransform, transformCtx, c1row0, c1row1, c1opp, c1out0,
    check_if_in_goal_cone, List.filter, c1cone, listMin]

/-- Row-wise evaluation for `c1row1`. -/
theorem c1row1Eval : rowTransform (transformCtx [c1row0, c1row1]) c1row1 = some c1out1 := by
  simp [rowTransform, transformCtx, c1row0, c1row1, c1out1, check_if_in_goal_cone,
    List.filter]

/-- Evaluation of the transform on the two-row batch. -/
theorem c1_eval : transform [c1row0, c1row1] = some [c1out0, c1out1] := by
  rw [transform]
  simp [mapOpt, c1row0Eval, c1row1Eval]

/-- C1: `nearest_opponent` is NOT the distance from the row's own shot
location.  In the two-row batch, row 0's only in-cone opponent stands at the
shot location of row 1; the source computes the distances against the whole
`df['x_shot']`/`df['y_shot']` columns, so row 0 gets `min(d, 0) = 0`,
although the distance from row 0's own shot to that opponent (third
conjunct) is strictly positive. -/
theorem nearest_opponent_uses_other_rows_shots :
    transform [c1row0, c1row1] = some [c1out0, c1out1] ∧
    c1out0.nearest_opponent = some 0 ∧
    0 < calcuate_distance (normalize_x 80, normalize_y 32)
        (normalize_x 100, normalize_y 56) := by
  refine ⟨c1_eval, ?_, ?_⟩
  · have h1 : calcuate_distance (normalize_x 100, normalize_y 56)
        (normalize_x 100, normalize_y 56) = 0 := by
      have h0 : distSq (normalize_x 100, normalize_y 56)
          (normalize_x 100, normalize_y 56) = 0 := by norm_num [distSq]
      rw [calcuate_distance, h0]
      simp
    have h2 : (0:ℝ) ≤ calcuate_distance (normalize_x 80, normalize_y 32)
        (normalize_x 100, normalize_y 56) := Real.sqrt_nonneg _
    simp only [c1out0, h1, Option.some.injEq]
    exact min_eq_right h2
  · rw [calcuate_distance]
    apply Real.sqrt_pos.mpr
    norm_num [distSq, normalize_x, normalize_y]

/-- C9: adding one player strictly inside the goal cone to a row's freeze
frame increases `players_between` by exactly one, and `opponents_between`
by exactly one when the player is a non-teammate (by zero when a
teammate). -/
theorem cone_counts_monotone (ctx : List (ℚ × ℚ)) (row : ShotEvent)
    (f : List Player) (p : Player) (hf : row.freeze_frame = some f)
    (hp : strictlyInCone (normalize_x row.x_shot) (normalize_y row.y_shot) p) :
    (rowTransform ctx {row with freeze_frame := some (p :: f)}).map
        OutRow.players_between
      = (rowTransform ctx row).map (fun o => o.players_between.map (· + 1)) ∧
    (rowTransform ctx {row with freeze_frame := some (p :: f)}).map
        OutRow.opponents_between
      = (rowTransform ctx row).map (fun o =>
          if p.teammate then o.opponents_between
          else o.opponents_between.map (· + 1)) := by
  obtain ⟨xs, ys, kp, ph, pxr, pyr, ff⟩ := row
  have hc : inGoalCone (normalize_x xs) (normalize_y ys) p = true :=
    strict_inGoalCone _ _ _ hp
  cases ff with
  | none => simp at hf
  | some f2 =>
    have hf2 : f2 = f := by simpa using hf
    subst hf2
    cases hpt : p.teammate with
    | false =>
      constructor
      · simp [rowTransform, check_if_in_goal_cone, List.filter, hc, hpt]
      · simp [rowTransform, check_if_in_goal_cone, List.filter, hc, hpt]
    | true =>
      constructor
      · simp [rowTransform, check_if_in_goal_cone, List.filter, hc, hpt]
      · simp [rowTransform, check_if_in_goal_cone, List.filter, hc, hpt]

/-- Witness for C9's theorem: adding `c1opp` to the empty freeze frame of
`c9row` yields `players_between = 1`. -/
theorem cone_counts_monotone_witness :
    (rowTransform [] {c9row with freeze_frame := some [c1opp]}).map
        OutRow.players_between = some (some 1) := by
  have h := (cone_counts_monotone [] c9row [] c1opp rfl
    (by norm_num [strictlyInCone, baryDenom, baryA, baryB, normalize_x, normalize_y,
      goal_dim, c9row, c1opp])).1
  rw [h]
  simp [rowTransform, c9row, check_if_in_goal_cone]

/-- C10: `safe_num_cast` never raises.  A string `pre ++ "%"` whose prefix
parses as a number yields that number divided by 100; a string `pre ++ "%"`
whose prefix does not parse yields the missing-value marker; a string not
ending in `'%'` yields exactly what `float` yields on it (its value when
parseable, the missing-value marker otherwise); the empty string (where
`num[-1]` raises `IndexError`, swallowed by the bare `except:`) yields the
missing-value marker. -/
theorem safe_num_cast_spec (s : String) :
    (∀ (pre : String) (q : ℚ), s = pre ++ "%" → pyFloat pre = some q →
      safe_num_cast s = some (q / 100)) ∧
    (∀ pre : String, s = pre ++ "%" → pyFloat pre = none → safe_num_cast s = none) ∧
    ((∀ pre : String, s ≠ pre ++ "%") → safe_num_cast s = pyFloat s) ∧
    (s = "" → safe_num_cast s = none) := by
  refine ⟨?_, ?_, ?_, ?_⟩
  · rintro pre q rfl hq
    rw [safe_num_cast]
    rw [String.data_append]
    simp only [show ("%" : String).data = ['%'] from rfl, List.getLast?_concat,
      List.dropLast_concat]
    rw [if_pos trivial]
    have hmk : String.mk pre.data = pre := rfl
    rw [hmk, hq]
  · rintro pre rfl hq
    rw [safe_num_cast]
    rw [String.data_append]
    simp only [show ("%" : String).data = ['%'] from rfl, List.getLast?_concat,
      List.dropLast_concat]
    rw [if_pos trivial]
    have hmk : String.mk pre.data = pre := rfl
    rw [hmk, hq]
  · intro hno
    rw [safe_num_cast]
    cases hls : s.data.getLast? with
    | none =>
      have hnil : s.data = [] := by
        cases hd : s.data with
        | nil => rfl
        | cons a r =>
          rw [hd, List.getLast?_eq_getLast _ (by simp)] at hls
          cases hls
      have hs : s = "" := by
        have h1 : s = String.mk s.data := rfl
        rw [h1, hnil]
      rw [hs]
      rfl
    | some c =>
      by_cases hpc : c = '%'
      · exfalso
        subst hpc
        apply hno (String.mk s.data.dropLast)
        have hd : s.data.dropLast ++ ['%'] = s.data := by
          cases hd2 : s.data with
          | nil => rw [hd2] at hls; cases hls
          | cons a r =>
            rw [hd2] at hls
            have hne : a :: r ≠ [] := by simp
            rw [List.getLast?_eq_getLast _ hne] at hls
            injection hls with hlast
            rw [← hlast]
            exact List.dropLast_append_getLast hne
        have h2 : String.mk s.data.dropLast ++ "%" = String.mk (s.data.dropLast ++ ['%']) := rfl
        rw [h2, hd]
      · simp only [hpc, ite_false]
  · rintro rfl
    rfl

/-- Witness for C10's theorem: `safe_num_cast "50%" = 50/100`. -/
theorem safe_num_cast_spec_witness : safe_num_cast "50%" = some (50 / 100) :=
  (safe_num_cast_spec "50%").1 "50" 50 rfl
    (by simp [pyFloat, pyFloatCore, splitAtDot, digitsToNat, digitVal, isDig])
